import Mathlib

/-!
Verification development for `git-stash-inbox` (src/src/main.rs), an interactive
triage tool for the git stash list.

Shallow embedding: each Rust function that issues git commands is translated to
a Lean function threading an explicit repository state (`RepoState`) and
recording the sequence of issued git operations (`GitOp`) and console output.
The outcomes of the external commands whose exit status the Rust code actually
inspects (`git commit -n`, `git stash-applied`, `git stash drop` inside
`drop_stash`, `git stash show -p`) are supplied as oracle parameters of type
`CmdOutcome`; the remaining commands have their exit status ignored by the code
(`.status()?;` only propagates spawn failures), so the embedding assumes their
processes spawn and models their standard repository effect.
`RepoState` is the environment model of git: branches, the current and the
previously checked-out branch (`git checkout -` target), the index (staged
changes, split by provenance), unstaged tracked modifications, untracked files,
commit history, and the stash stack addressed by ordinal position.
Strings are treated at ASCII granularity: Rust's Unicode `char::is_alphanumeric`
and `str::to_lowercase` are modelled by their ASCII restrictions.
-/

/-- Outcome of spawning and waiting on one external command:
the spawn itself failed (`Command::status()` returns `Err`), the process was
killed by a signal (no exit code), or it exited with the given code. -/
inductive CmdOutcome
| spawnFailed
| signaled
| exited (code : Int)
deriving DecidableEq

/-- Rust `ExitStatus::success()`: true exactly when the process exited with
code 0 (a signal-terminated process is not a success). Only queried after a
successful spawn. -/
def CmdOutcome.success : CmdOutcome → Bool
| .exited c => c == 0
| _ => false

/-- Rust `ExitStatus::code()`: `some c` when the process exited with code `c`,
`none` when it was terminated by a signal. -/
def CmdOutcome.exitCode : CmdOutcome → Option Int
| .exited c => some c
| _ => none

/-- Errors the embedded functions can report, mirroring the `io::Error` values
of the source: a spawn/launch failure of an external command, the
`UnexpectedEof` produced by `read_line` at end of input, and the
`io::ErrorKind::Other` errors built by `error(message)`. -/
inductive RunError
| spawnFailure
| unexpectedEof
| other (msg : String)
deriving DecidableEq

/-- One git operation issued (spawned) by the tool. Stash operations carry the
ordinal stash position; the ref string passed to git is `stash_ref` of it. -/
inductive GitOp
| checkoutNewBranch (name : String)
| stashApply (pos : Nat)
| addAll
| commitNoVerify
| resetHead
| checkoutDot
| cleanForce
| checkoutPrev
| branchDelete (name : String)
| branchMove (name : String)
| stashDrop (pos : Nat)
| stashShow (pos : Nat)
| stashAppliedQuery (pos : Nat)
deriving DecidableEq

/-- `stash_ref(id)`: the ref string `stash@{id}` handed to git. -/
def stash_ref (id : Nat) : String :=
  "stash@\x7b" ++ toString id ++ "\x7d"

/-- Content of one stash entry: modifications to tracked files and untracked
files it would reintroduce into the working tree. -/
structure StashContent where
  tracked : List String
  untracked : List String
deriving DecidableEq

/-- Environment model of the repository: branch list, current branch,
previously checked-out branch (the target of `git checkout -`), index contents
(split by whether the staged path was tracked or untracked), unstaged tracked
modifications, untracked files, commit history (each commit: the list of paths
it recorded), and the stash stack (position 0 = most recent). -/
structure RepoState where
  branches : List String
  current : String
  previous : String
  stagedTracked : List String
  stagedUntracked : List String
  trackedMods : List String
  untracked : List String
  commits : List (List String)
  stashes : List StashContent
deriving DecidableEq

/-- Effect of `git checkout -b name`: record the new branch, switch to it,
remembering the branch we came from. -/
def gitCheckoutNewBranch (name : String) (s : RepoState) : RepoState :=
  { s with branches := s.branches ++ [name], previous := s.current, current := name }

/-- Effect of `git stash apply stash@{pos}`: reintroduce the stash's changes
into the working tree (the stash entry itself is kept). Unknown position is a
no-op (the code ignores the command's exit status). -/
def gitStashApply (pos : Nat) (s : RepoState) : RepoState :=
  match s.stashes[pos]? with
  | some st =>
      { s with trackedMods := s.trackedMods ++ st.tracked,
               untracked := s.untracked ++ st.untracked }
  | none => s

/-- Effect of `git add .`: stage every working-tree change. -/
def gitAddAll (s : RepoState) : RepoState :=
  { s with stagedTracked := s.stagedTracked ++ s.trackedMods,
           stagedUntracked := s.stagedUntracked ++ s.untracked,
           trackedMods := [], untracked := [] }

/-- Effect of a successful `git commit -n`: record the staged paths as a new
commit and clear the index. -/
def gitCommit (s : RepoState) : RepoState :=
  { s with commits := s.commits ++ [s.stagedTracked ++ s.stagedUntracked],
           stagedTracked := [], stagedUntracked := [] }

/-- Effect of `git reset HEAD`: unstage everything back into the working tree. -/
def gitResetHead (s : RepoState) : RepoState :=
  { s with trackedMods := s.trackedMods ++ s.stagedTracked,
           untracked := s.untracked ++ s.stagedUntracked,
           stagedTracked := [], stagedUntracked := [] }

/-- Effect of `git checkout .`: discard unstaged modifications to tracked files. -/
def gitCheckoutDot (s : RepoState) : RepoState :=
  { s with trackedMods := [] }

/-- Effect of `git clean -f`: remove untracked files. -/
def gitCleanForce (s : RepoState) : RepoState :=
  { s with untracked := [] }

/-- Effect of `git checkout -`: switch back to the previously checked-out
branch. -/
def gitCheckoutPrev (s : RepoState) : RepoState :=
  { s with current := s.previous, previous := s.current }

/-- Effect of `git branch -d name`: delete the branch. -/
def gitBranchDelete (name : String) (s : RepoState) : RepoState :=
  { s with branches := s.branches.erase name }

/-- Effect of `git branch -m name`: rename the current branch to `name`. -/
def gitBranchMove (name : String) (s : RepoState) : RepoState :=
  { s with branches := s.branches.erase s.current ++ [name], current := name }

/-- Effect of `git stash drop stash@{pos}`: remove the stash at that position;
later entries shift down by one. -/
def gitStashDrop (pos : Nat) (s : RepoState) : RepoState :=
  { s with stashes := s.stashes.eraseIdx pos }

/-- Output of one embedded call: repository state afterwards, the git
operations issued, and the console lines printed (color codes stripped). -/
structure StepOut where
  state : RepoState
  trace : List GitOp
  console : List String
deriving DecidableEq

/-- Splitter behind Rust `str::split_whitespace`: cut at whitespace runs,
producing no empty terms. The accumulator holds the current term reversed. -/
def splitWsAux : List Char → List Char → List (List Char)
| [], acc => if acc.isEmpty then [] else [acc.reverse]
| c :: rest, acc =>
  if c.isWhitespace then
    if acc.isEmpty then splitWsAux rest []
    else acc.reverse :: splitWsAux rest []
  else splitWsAux rest (c :: acc)

/-- Rust `str::split_whitespace` on a string, as the list of its terms. -/
def splitWhitespace (s : String) : List String :=
  (splitWsAux s.toList []).map (fun cs => String.mk cs)

/-- Rust `str::trim`: strip leading and trailing whitespace. -/
def trimChars (cs : List Char) : List Char :=
  ((cs.dropWhile Char.isWhitespace).reverse.dropWhile Char.isWhitespace).reverse

/-- Rust `str::trim` on a `String`. -/
def rustTrim (s : String) : String :=
  String.mk (trimChars s.toList)

/-- Rust `char::is_alphanumeric`, restricted to ASCII: letters and digits. -/
def isAlphanumeric (c : Char) : Bool :=
  c.isAlphanum

/-- The branch-name slug computed in `commit_to_branch` from the commit
subject: `subject.trim().split_whitespace()` joined with `_`, then
`retain(|c| c == '_' || c.is_alphanumeric())`, then `to_lowercase()`. -/
def slugOf (subject : String) : String :=
  let terms := splitWhitespace (rustTrim subject)
  let joined := String.intercalate "_" terms
  let retained := String.mk (joined.toList.filter (fun c => c == '_' || isAlphanumeric c))
  String.mk (retained.toList.map Char.toLower)

/-- Rust `str::starts_with(char)`: the first character is `c`. -/
def startsWithChar (c : Char) (s : String) : Bool :=
  match s.toList with
  | [] => false
  | x :: _ => x == c

/-- Eligibility test applied to each line of the commit-message file:
`!line.is_empty() && !line.starts_with('#')`. -/
def eligibleSubjectLine (line : String) : Bool :=
  !line.toList.isEmpty && !(startsWithChar '#' line)

/-- The subject extraction in `commit_to_branch`: the first eligible line of
`.git/COMMIT_EDITMSG` (`reader.lines() ... find_map`). -/
def findSubjectLine (lines : List String) : Option String :=
  lines.find? eligibleSubjectLine

/-- The fixed placeholder branch name used during promotion. -/
def tempBranchName : String := "stash/__TEMP_STASH__"

/-- `git_stash_show(stash_num)`: spawn `git stash show -p stash@{n}`;
a spawn failure propagates, a signal-terminated process becomes the
`terminated by signal` error, and otherwise the stash "exists" exactly when
the exit code is 0 or 141 (the broken-pipe sentinel). -/
def git_stash_show (stash_num : Nat) (showOutcome : CmdOutcome) :
    Except RunError Bool :=
  match showOutcome with
  | .spawnFailed => .error .spawnFailure
  | .signaled => .error (.other "terminated by signal")
  | .exited code => .ok (code == 0 || code == 141)

/-- `drop_stash(stash_num)`. Oracle inputs: the outcome of the external
`git stash-applied stash@{n}` query, the operator's line at the confirmation
prompt (`none` = end of input), and the outcome of `git stash drop stash@{n}`.
Mirrors the source: `applied` is the NEGATION of the query's `success()`;
the prompt is shown when `!applied`; an answer other than `y` returns `Ok(())`
without dropping; the drop's exit status is never inspected (`status()?;`). -/
def drop_stash (stash_num : Nat) (appliedOutcome : CmdOutcome)
    (promptAnswer : Option String) (dropOutcome : CmdOutcome) (s : RepoState) :
    Except RunError Unit × StepOut :=
  match appliedOutcome with
  | .spawnFailed => (.error .spawnFailure, ⟨s, [.stashAppliedQuery stash_num], []⟩)
  | _ =>
    let applied := !appliedOutcome.success
    if !applied then
      match promptAnswer with
      | none =>
          (.error .unexpectedEof,
           ⟨s, [.stashAppliedQuery stash_num],
            ["Stash may not be applied. Drop anyway? [y/N] "]⟩)
      | some answer =>
          if answer != "y" then
            (.ok (),
             ⟨s, [.stashAppliedQuery stash_num],
              ["Stash may not be applied. Drop anyway? [y/N] "]⟩)
          else
            match dropOutcome with
            | .spawnFailed =>
                (.error .spawnFailure,
                 ⟨s, [.stashAppliedQuery stash_num, .stashDrop stash_num],
                  ["Stash may not be applied. Drop anyway? [y/N] "]⟩)
            | d =>
                (.ok (),
                 ⟨if d.success then gitStashDrop stash_num s else s,
                  [.stashAppliedQuery stash_num, .stashDrop stash_num],
                  ["Stash may not be applied. Drop anyway? [y/N] "]⟩)
    else
      match dropOutcome with
      | .spawnFailed =>
          (.error .spawnFailure,
           ⟨s, [.stashAppliedQuery stash_num, .stashDrop stash_num], []⟩)
      | d =>
          (.ok (),
           ⟨if d.success then gitStashDrop stash_num s else s,
            [.stashAppliedQuery stash_num, .stashDrop stash_num], []⟩)

/-- `commit_to_branch(stash_num, can_save_branch)`. Oracle inputs: whether the
`git commit -n` step succeeds, and the lines of `.git/COMMIT_EDITMSG` read
back after a successful commit. Mirrors the source exactly: the guard branch
prints an error and returns `Ok(())` issuing nothing; the forward steps are
checkout -b, stash apply, add ., commit -n; on commit failure the compensation
sequence reset HEAD / checkout . / clean -f / checkout - / branch -d runs and
the function returns `Ok(())` without touching the stash; on commit success
the subject line is extracted (its absence is the fatal `no lines found`
error, with no compensation), the branch renamed to `stash/` ++ slug, the
prior branch checked out, and the stash dropped. -/
def commit_to_branch (stash_num : Nat) (can_save_branch : Bool)
    (commitSucceeds : Bool) (msgLines : List String) (s : RepoState) :
    Except RunError Unit × StepOut :=
  if !can_save_branch then
    (.ok (), ⟨s, [], ["ERROR - Can't commit branches with unstaged files!."]⟩)
  else
    let s1 := gitCheckoutNewBranch tempBranchName s
    let s2 := gitStashApply stash_num s1
    let s3 := gitAddAll s2
    let pre : List GitOp :=
      [.checkoutNewBranch tempBranchName, .stashApply stash_num, .addAll,
       .commitNoVerify]
    if !commitSucceeds then
      let s4 := gitResetHead s3
      let s5 := gitCheckoutDot s4
      let s6 := gitCleanForce s5
      let s7 := gitCheckoutPrev s6
      let s8 := gitBranchDelete tempBranchName s7
      (.ok (),
       ⟨s8,
        pre ++ [.resetHead, .checkoutDot, .cleanForce, .checkoutPrev,
                .branchDelete tempBranchName], []⟩)
    else
      let s4 := gitCommit s3
      match findSubjectLine msgLines with
      | none => (.error (.other "no lines found"), ⟨s4, pre, []⟩)
      | some subject =>
        let new_branch_name := "stash/" ++ slugOf subject
        let s5 := gitBranchMove new_branch_name s4
        let s6 := gitCheckoutPrev s5
        let s7 := gitStashDrop stash_num s6
        (.ok (),
         ⟨s7,
          pre ++ [.branchMove new_branch_name, .checkoutPrev,
                  .stashDrop stash_num], []⟩)

/-- The per-iteration session state of `main`'s review loop: either the cursor
is reviewing a stash position, or the loop has exited. -/
inductive SessionState
| reviewing (pos : Nat)
| done
deriving DecidableEq

/-- Oracle bundle for one iteration of the session loop: the outcomes of the
external commands a dispatched action may run, the operator's answer to the
drop confirmation prompt, and the commit-message file contents. -/
structure Oracles where
  appliedOutcome : CmdOutcome
  promptAnswer : Option String
  dropOutcome : CmdOutcome
  commitSucceeds : Bool
  msgLines : List String
deriving DecidableEq

/-- The action prompt printed at the top of each loop iteration. -/
def actionPrompt : String := "Action on this stash [d,b,s,a,q,?]? "

/-- The help text printed for `?` or empty input. -/
def helpLines : List String :=
  ["d - drop this stash",
   "b - commit this stash to a separate branch and delete it",
   "s - take no action on this stash",
   "a - apply; apply the stash and take no further action",
   "q - quit; take no further action on remaining stashes",
   "? - print help"]

/-- One iteration of `main`'s review loop body, after `git_stash_show` has
reported that a stash exists at `pos`: print the prompt, read the operator's
line (`none` = end of input, which prints a newline and breaks), dispatch.
Mirrors the source `match action.as_str()`:
`d` runs `drop_stash` (its `UnexpectedEof` breaks the loop, other errors are
fatal), `b` runs `commit_to_branch` (errors fatal), `s` advances the cursor,
`a` CONSTRUCTS `git(["stash", "apply", ...])` but never spawns it — no
`.status()` call — then breaks, `q` breaks, `?` or empty input prints help,
anything else is ignored. A fatal error aborts the session (`main` returns
`Err`). -/
def sessionStep (can_save_branch : Bool) (pos : Nat) (input : Option String)
    (o : Oracles) (s : RepoState) :
    Except RunError SessionState × StepOut :=
  match input with
  | none => (.ok .done, ⟨s, [], [actionPrompt, ""]⟩)
  | some action =>
    if action = "d" then
      match drop_stash pos o.appliedOutcome o.promptAnswer o.dropOutcome s with
      | (.error .unexpectedEof, out) =>
          (.ok .done, ⟨out.state, out.trace, actionPrompt :: out.console ++ [""]⟩)
      | (.error e, out) =>
          (.error e, ⟨out.state, out.trace, actionPrompt :: out.console⟩)
      | (.ok _, out) =>
          (.ok (.reviewing pos), ⟨out.state, out.trace, actionPrompt :: out.console⟩)
    else if action = "b" then
      match commit_to_branch pos can_save_branch o.commitSucceeds o.msgLines s with
      | (.error e, out) =>
          (.error e, ⟨out.state, out.trace, actionPrompt :: out.console⟩)
      | (.ok _, out) =>
          (.ok (.reviewing pos), ⟨out.state, out.trace, actionPrompt :: out.console⟩)
    else if action = "s" then
      (.ok (.reviewing (pos + 1)), ⟨s, [], [actionPrompt]⟩)
    else if action = "a" then
      (.ok .done, ⟨s, [], [actionPrompt]⟩)
    else if action = "q" then
      (.ok .done, ⟨s, [], [actionPrompt]⟩)
    else if action = "?" || action = "" then
      (.ok (.reviewing pos), ⟨s, [], actionPrompt :: helpLines⟩)
    else
      (.ok (.reviewing pos), ⟨s, [], [actionPrompt]⟩)

/-- A concrete repository with one non-empty stash and a clean working tree,
used to instantiate hypotheses at concrete inputs. -/
def repoWithStash : RepoState :=
  { branches := ["main"], current := "main", previous := "main",
    stagedTracked := [], stagedUntracked := [], trackedMods := [],
    untracked := [], commits := [["init"]],
    stashes := [⟨["file.txt"], ["new.txt"]⟩] }

/-- A fixed oracle bundle for concrete instantiations. -/
def sampleOracles : Oracles :=
  { appliedOutcome := .exited 0, promptAnswer := some "y",
    dropOutcome := .exited 0, commitSucceeds := true,
    msgLines := ["subject line"] }

theorem gitStashApply_branches (pos : Nat) (s : RepoState) :
    (gitStashApply pos s).branches = s.branches := by
  unfold gitStashApply; cases hx : s.stashes[pos]? <;> simp [hx]

theorem gitStashApply_current (pos : Nat) (s : RepoState) :
    (gitStashApply pos s).current = s.current := by
  unfold gitStashApply; cases hx : s.stashes[pos]? <;> simp [hx]

theorem gitStashApply_previous (pos : Nat) (s : RepoState) :
    (gitStashApply pos s).previous = s.previous := by
  unfold gitStashApply; cases hx : s.stashes[pos]? <;> simp [hx]

theorem gitStashApply_stagedTracked (pos : Nat) (s : RepoState) :
    (gitStashApply pos s).stagedTracked = s.stagedTracked := by
  unfold gitStashApply; cases hx : s.stashes[pos]? <;> simp [hx]

theorem gitStashApply_stagedUntracked (pos : Nat) (s : RepoState) :
    (gitStashApply pos s).stagedUntracked = s.stagedUntracked := by
  unfold gitStashApply; cases hx : s.stashes[pos]? <;> simp [hx]

theorem gitStashApply_commits (pos : Nat) (s : RepoState) :
    (gitStashApply pos s).commits = s.commits := by
  unfold gitStashApply; cases hx : s.stashes[pos]? <;> simp [hx]

theorem gitStashApply_stashes (pos : Nat) (s : RepoState) :
    (gitStashApply pos s).stashes = s.stashes := by
  unfold gitStashApply; cases hx : s.stashes[pos]? <;> simp [hx]

theorem erase_append_self {l : List String} {a : String} (h : a ∉ l) :
    (l ++ [a]).erase a = l := by
  induction l with
  | nil => simp
  | cons x xs ih =>
    simp only [List.mem_cons, not_or] at h
    have hxa : (x == a) = false := by
      simp only [beq_eq_false_iff_ne]
      intro e; exact h.1 e.symm
    simp [List.erase_cons, hxa, ih h.2]

/-- C8: for every position, `commit_to_branch(position, false)` — promotion
while local changes were present at session start — emits the error-level
message and returns `Ok(())` without issuing any VCS operation or mutating the
repository state. -/
theorem promote_disallowed_no_mutation (stash_num : Nat) (commitSucceeds : Bool)
    (msgLines : List String) (s : RepoState) :
    commit_to_branch stash_num false commitSucceeds msgLines s =
      (.ok (), ⟨s, [], ["ERROR - Can't commit branches with unstaged files!."]⟩) :=
  rfl

/-- C3: in the session loop, input `a` while reviewing transitions to `Done`,
but the `git stash apply` command is only constructed and never spawned (there
is no `.status()` call), so NO operation is issued against the VCS and the
repository state is unchanged: the trace of issued operations is empty. -/
theorem apply_action_issues_no_operation (can_save_branch : Bool) (pos : Nat)
    (o : Oracles) (s : RepoState) :
    sessionStep can_save_branch pos (some "a") o s =
      (.ok .done, ⟨s, [], [actionPrompt]⟩) :=
  rfl

/-- C10: the commit subject `!!!` is eligible (non-empty, does not start with
the comment marker), yet its sanitized slug is empty, so the derived branch
name is exactly the bare namespace prefix `stash/`. -/
theorem empty_slug_branch_name :
    eligibleSubjectLine "!!!" = true ∧
    findSubjectLine ["!!!"] = some "!!!" ∧
    slugOf "!!!" = "" ∧
    (commit_to_branch 0 true true ["!!!"] repoWithStash).2.trace =
      [.checkoutNewBranch tempBranchName, .stashApply 0, .addAll, .commitNoVerify,
       .branchMove "stash/", .checkoutPrev, .stashDrop 0] :=
  ⟨rfl, rfl, rfl, rfl⟩

/-- C2: when the commit succeeds but `.git/COMMIT_EDITMSG` holds no eligible
line, `commit_to_branch` returns the fatal `no lines found` error having
issued only the four forward operations — NO rollback step runs: the
placeholder branch is still present and checked out and the stash is still in
the stack, contradicting the claim that the commit-failure rollback is
executed in this case. -/
theorem promote_missing_subject_no_rollback :
    (commit_to_branch 0 true true ["# stash comment", ""] repoWithStash).1 =
      .error (.other "no lines found") ∧
    (commit_to_branch 0 true true ["# stash comment", ""] repoWithStash).2.trace =
      [.checkoutNewBranch tempBranchName, .stashApply 0, .addAll, .commitNoVerify] ∧
    (commit_to_branch 0 true true ["# stash comment", ""] repoWithStash).2.state.current =
      tempBranchName ∧
    tempBranchName ∈
      (commit_to_branch 0 true true ["# stash comment", ""] repoWithStash).2.state.branches ∧
    (commit_to_branch 0 true true ["# stash comment", ""] repoWithStash).2.state.stashes =
      repoWithStash.stashes :=
  ⟨rfl, rfl, rfl, by decide, rfl⟩

/-- C4: `drop_stash` computes `applied` as the NEGATION of the looks-applied
query's success, so when the query is unsupported or fails (nonzero exit code,
here 1) the stash is treated as applied and dropped with no confirmation
prompt (no prompt line is printed and the unavailable operator input is never
read), while a query exiting 0 triggers the prompt; declining the prompt
leaves the stash stack unchanged. This contradicts the claim, which requires
an unsupported query to be treated as "not applied" and prompt. -/
theorem drop_unsupported_query_skips_prompt :
    (drop_stash 0 (.exited 1) none (.exited 0) repoWithStash).1 = .ok () ∧
    (drop_stash 0 (.exited 1) none (.exited 0) repoWithStash).2.trace =
      [.stashAppliedQuery 0, .stashDrop 0] ∧
    (drop_stash 0 (.exited 1) none (.exited 0) repoWithStash).2.console = [] ∧
    (drop_stash 0 (.exited 1) none (.exited 0) repoWithStash).2.state.stashes = [] ∧
    (drop_stash 0 (.exited 0) (some "") (.exited 0) repoWithStash).2.console =
      ["Stash may not be applied. Drop anyway? [y/N] "] ∧
    (drop_stash 0 (.exited 0) (some "") (.exited 0) repoWithStash).2.trace =
      [.stashAppliedQuery 0] ∧
    (drop_stash 0 (.exited 0) (some "") (.exited 0) repoWithStash).2.state =
      repoWithStash :=
  ⟨rfl, rfl, rfl, rfl, rfl, rfl, rfl⟩

/-- C6 counterexample: an abnormally terminated inspection (no exit code) is
NOT classified as "no stash at this position": `git_stash_show` raises the
`terminated by signal` error instead of returning false. -/
theorem stash_show_signal_counterexample :
    git_stash_show 0 .signaled = .error (.other "terminated by signal") ∧
    git_stash_show 0 .signaled ≠ .ok false :=
  ⟨rfl, fun h => Except.noConfusion h⟩

/-- C6 amended: `git_stash_show` returns true iff the exit code is 0 or the
broken-pipe sentinel 141, returns false for every other exit code, and raises
an error (rather than returning false) on abnormal termination without an
exit code; a spawn failure also propagates as an error. -/
theorem stash_show_exit_classification (stash_num : Nat) (c : Int) :
    (git_stash_show stash_num (.exited c) = .ok true ↔ (c = 0 ∨ c = 141)) ∧
    (git_stash_show stash_num (.exited c) = .ok false ↔ ¬(c = 0 ∨ c = 141)) ∧
    git_stash_show stash_num .signaled = .error (.other "terminated by signal") ∧
    git_stash_show stash_num .spawnFailed = .error .spawnFailure := by
  refine ⟨?_, ?_, rfl, rfl⟩ <;>
    by_cases h0 : c = 0 <;> by_cases h141 : c = 141 <;>
      simp [git_stash_show, h0, h141]

/-- C9: the exit status of the `git stash drop` step inside `drop_stash` is
never inspected: whatever exit code the drop returns (and even if it is
signal-terminated), the reported result is identical to the result with exit
code 0, so a failed drop is indistinguishable from a successful one; only a
spawn failure of the drop command propagates as an error. -/
theorem drop_exit_status_ignored (stash_num : Nat) (appliedOutcome : CmdOutcome)
    (promptAnswer : Option String) (s : RepoState) (c : Int) :
    (drop_stash stash_num appliedOutcome promptAnswer (.exited c) s).1 =
      (drop_stash stash_num appliedOutcome promptAnswer (.exited 0) s).1 ∧
    (drop_stash stash_num appliedOutcome promptAnswer .signaled s).1 =
      (drop_stash stash_num appliedOutcome promptAnswer (.exited 0) s).1 ∧
    (drop_stash stash_num (.exited 1) promptAnswer .spawnFailed s).1 =
      .error .spawnFailure := by
  refine ⟨?_, ?_, rfl⟩ <;>
  · cases appliedOutcome with
    | spawnFailed => rfl
    | signaled => rfl
    | exited code =>
      simp only [drop_stash, CmdOutcome.success]
      split <;> try rfl
      cases promptAnswer with
      | none => rfl
      | some answer =>
        by_cases hans : answer = "y" <;> simp [hans]

/-- C5: after a successful commit during promotion with an eligible subject
line found, the placeholder branch is renamed to `stash/` ++ the sanitized
slug of the subject (whitespace-joined with underscores, stripped of
non-alphanumeric/underscore characters, lower-cased), then the prior branch is
checked out and the stash is dropped, in that order; the example subject
`Fix login bug!! ` yields the branch `stash/fix_login_bug`. -/
theorem promote_success_branch_rename (stash_num : Nat) (msgLines : List String)
    (subject : String) (s : RepoState)
    (h : findSubjectLine msgLines = some subject) :
    (commit_to_branch stash_num true true msgLines s).1 = .ok () ∧
    (commit_to_branch stash_num true true msgLines s).2.trace =
      [.checkoutNewBranch tempBranchName, .stashApply stash_num, .addAll,
       .commitNoVerify, .branchMove ("stash/" ++ slugOf subject), .checkoutPrev,
       .stashDrop stash_num] ∧
    (commit_to_branch stash_num true true msgLines s).2.state.current = s.current ∧
    (commit_to_branch stash_num true true msgLines s).2.state.stashes =
      s.stashes.eraseIdx stash_num ∧
    slugOf "Fix login bug!! " = "fix_login_bug" := by
  refine ⟨?_, ?_, ?_, ?_, rfl⟩ <;>
    simp [commit_to_branch, h, gitStashDrop, gitCheckoutPrev, gitBranchMove,
          gitCommit, gitAddAll, gitCheckoutNewBranch, gitStashApply_current,
          gitStashApply_previous, gitStashApply_stashes]

/-- C5 witness: the promotion of stash 0 on the sample repository with commit
subject `Fix login bug!! `. -/
theorem promote_success_branch_rename_witness :
    (commit_to_branch 0 true true ["Fix login bug!! "] repoWithStash).1 = .ok () ∧
    (commit_to_branch 0 true true ["Fix login bug!! "] repoWithStash).2.trace =
      [.checkoutNewBranch tempBranchName, .stashApply 0, .addAll,
       .commitNoVerify, .branchMove ("stash/" ++ slugOf "Fix login bug!! "),
       .checkoutPrev, .stashDrop 0] ∧
    (commit_to_branch 0 true true ["Fix login bug!! "] repoWithStash).2.state.current =
      repoWithStash.current ∧
    (commit_to_branch 0 true true ["Fix login bug!! "] repoWithStash).2.state.stashes =
      repoWithStash.stashes.eraseIdx 0 ∧
    slugOf "Fix login bug!! " = "fix_login_bug" :=
  promote_success_branch_rename 0 ["Fix login bug!! "] "Fix login bug!! "
    repoWithStash rfl

/-- C1: when the commit step fails during an allowed promotion, the
compensating operations run in exactly the order unstage (`reset HEAD`),
discard tracked modifications (`checkout .`), remove untracked files
(`clean -f`), switch back to the prior branch (`checkout -`), delete the
placeholder branch (`branch -d`); no stash-drop is ever issued, and for any
starting repository with a clean working tree and no leftover placeholder
branch the resulting repository content (branches, current branch, index,
working tree, commits, stashes) equals the starting one; the call reports
`Ok(())`. -/
theorem promote_commit_failure_rollback (stash_num : Nat) (msgLines : List String)
    (s : RepoState)
    (hst : s.stagedTracked = []) (hsu : s.stagedUntracked = [])
    (htm : s.trackedMods = []) (hut : s.untracked = [])
    (hbr : tempBranchName ∉ s.branches) :
    (commit_to_branch stash_num true false msgLines s).1 = .ok () ∧
    (commit_to_branch stash_num true false msgLines s).2.trace =
      [.checkoutNewBranch tempBranchName, .stashApply stash_num, .addAll,
       .commitNoVerify, .resetHead, .checkoutDot, .cleanForce, .checkoutPrev,
       .branchDelete tempBranchName] ∧
    (∀ m, GitOp.stashDrop m ∉ (commit_to_branch stash_num true false msgLines s).2.trace) ∧
    (commit_to_branch stash_num true false msgLines s).2.state.branches = s.branches ∧
    (commit_to_branch stash_num true false msgLines s).2.state.current = s.current ∧
    (commit_to_branch stash_num true false msgLines s).2.state.stagedTracked =
      s.stagedTracked ∧
    (commit_to_branch stash_num true false msgLines s).2.state.stagedUntracked =
      s.stagedUntracked ∧
    (commit_to_branch stash_num true false msgLines s).2.state.trackedMods =
      s.trackedMods ∧
    (commit_to_branch stash_num true false msgLines s).2.state.untracked =
      s.untracked ∧
    (commit_to_branch stash_num true false msgLines s).2.state.commits = s.commits ∧
    (commit_to_branch stash_num true false msgLines s).2.state.stashes = s.stashes := by
  refine ⟨rfl, rfl, ?_, ?_, ?_, ?_, ?_, ?_, ?_, ?_, ?_⟩ <;>
    simp [commit_to_branch, gitBranchDelete, gitCheckoutPrev, gitCleanForce,
          gitCheckoutDot, gitResetHead, gitAddAll, gitCheckoutNewBranch,
          gitStashApply_branches, gitStashApply_current, gitStashApply_previous,
          gitStashApply_stagedTracked, gitStashApply_stagedUntracked,
          gitStashApply_commits, gitStashApply_stashes,
          hst, hsu, htm, hut, erase_append_self hbr]

/-- C1 witness: a failed promotion of stash 0 on the sample repository. -/
theorem promote_commit_failure_rollback_witness :
    (commit_to_branch 0 true false [] repoWithStash).1 = .ok () ∧
    (commit_to_branch 0 true false [] repoWithStash).2.trace =
      [.checkoutNewBranch tempBranchName, .stashApply 0, .addAll,
       .commitNoVerify, .resetHead, .checkoutDot, .cleanForce, .checkoutPrev,
       .branchDelete tempBranchName] ∧
    (∀ m, GitOp.stashDrop m ∉ (commit_to_branch 0 true false [] repoWithStash).2.trace) ∧
    (commit_to_branch 0 true false [] repoWithStash).2.state.branches =
      repoWithStash.branches ∧
    (commit_to_branch 0 true false [] repoWithStash).2.state.current =
      repoWithStash.current ∧
    (commit_to_branch 0 true false [] repoWithStash).2.state.stagedTracked =
      repoWithStash.stagedTracked ∧
    (commit_to_branch 0 true false [] repoWithStash).2.state.stagedUntracked =
      repoWithStash.stagedUntracked ∧
    (commit_to_branch 0 true false [] repoWithStash).2.state.trackedMods =
      repoWithStash.trackedMods ∧
    (commit_to_branch 0 true false [] repoWithStash).2.state.untracked =
      repoWithStash.untracked ∧
    (commit_to_branch 0 true false [] repoWithStash).2.state.commits =
      repoWithStash.commits ∧
    (commit_to_branch 0 true false [] repoWithStash).2.state.stashes =
      repoWithStash.stashes :=
  promote_commit_failure_rollback 0 [] repoWithStash rfl rfl rfl rfl (by decide)

/-- C7: over one step of the session loop while reviewing `pos`, whenever the
next state is again a reviewing state, its cursor position is `pos + 1`
exactly when the operator entered `s`, and `pos` unchanged for every other
input — in particular after `d` (drop) and after `b` (promotion, successful
or failed). -/
theorem session_cursor_advance (can_save_branch : Bool) (pos : Nat)
    (input : Option String) (o : Oracles) (s : RepoState) (next : Nat)
    (h : (sessionStep can_save_branch pos input o s).1 = .ok (.reviewing next)) :
    next = if input = some "s" then pos + 1 else pos := by
  cases input with
  | none => simp [sessionStep] at h
  | some action =>
    simp only [sessionStep] at h
    repeat' split at h
    all_goals simp_all

/-- C7 witness: the explicit skip `s` at position 0 advances the cursor to 1. -/
theorem session_cursor_advance_witness :
    (1 : Nat) = if (some "s" : Option String) = some "s" then 0 + 1 else 0 :=
  session_cursor_advance true 0 (some "s") sampleOracles repoWithStash 1 rfl
